import Mathlib

/-!
Verification of the markdown/block conversion core and tool handlers of the
notion-mcp repository (src/notion_service.py, src/notion_mcp_server.py).

The Python code works on JSON-shaped dictionaries.  The embedding models every
field the code actually reads or writes as an explicit `Option` field (a
missing dictionary key is `none`); `dict.get` with a default becomes
`Option.getD`, a bare `dict[key]` access becomes a `match` whose `none` branch
raises the corresponding `KeyError`.
-/

/-- One rich-text span.  The decoder reads the top-level `plain_text` key
(`rt.get("plain_text", "")`); the encoder writes a span of the shape
`{"type": "text", "text": {"content": s}}`, whose nested content string is
modelled by the `content` field (the constant `"type": "text"` marker is never
read back and is not modelled). -/
structure RichTextSpan where
  plain_text : Option String := none
  content : Option String := none
  deriving DecidableEq

/-- The mapping stored under the type key of a block (`block["paragraph"]`,
`block["to_do"]`, ...).  `rich_text` and `checked` are read with bare
indexing in the source (raising `KeyError` when absent), `language` with
`.get("language", "")`. -/
structure BlockPayload where
  rich_text : Option (List RichTextSpan) := none
  checked : Option Bool := none
  language : Option String := none
  deriving DecidableEq

/-- One Notion block.  `type` models `block.get("type")`; `payload` models the
mapping stored under the key equal to the type of the block (the only payload key
the source ever reads); `has_children` models the truthiness of
`block.get("has_children")`; `id` models `block["id"]`.  The encoder also
writes a constant `"object": "block"` entry which is never read back and is
not modelled. -/
structure Block where
  type : Option String := none
  payload : Option BlockPayload := none
  has_children : Bool := false
  id : String := ""
  deriving DecidableEq

/-- One property value inside the `properties` mapping of a page, as read by
`extract_title`: `prop_value.get("type")` and `prop_value.get("title", [])`. -/
structure PropValue where
  type : Option String := none
  title : Option (List RichTextSpan) := none
  deriving DecidableEq

/-- The part of a page or database record read by `extract_title`
(`notion_service.extract_title` and the identical
`NotionMCPServer._extract_title`): the optional `properties` mapping (an
insertion-ordered dict, modelled as an association list) and the optional
top-level `title` array. -/
structure PageOrDb where
  properties : Option (List (String × PropValue)) := none
  title : Option (List RichTextSpan) := none
  deriving DecidableEq

/-- `rich_text_to_plain_text`: `"".join([rt.get("plain_text", "") for rt in rich_text])`. -/
def rich_text_to_plain_text (rich_text : List RichTextSpan) : String :=
  String.join (rich_text.map (fun rt => rt.plain_text.getD ""))

/-- The `for prop_name, prop_value in page_or_db["properties"].items()` loop of
`extract_title`: the first entry whose `type` is `"title"` and whose
`title` array (default `[]`) is non-empty ends the loop with that array;
entries whose array is empty are passed over and the scan continues. -/
def firstTitleHit : List (String × PropValue) → Option (List RichTextSpan)
  | [] => none
  | (_, prop_value) :: rest =>
    if prop_value.type = some "title" then
      let title_array := prop_value.title.getD []
      if title_array ≠ [] then some title_array else firstTitleHit rest
    else firstTitleHit rest

/-- The tail of `extract_title` reached when the `properties` scan returned
nothing: `if "title" in page_or_db` with a truthy (non-empty) array returns
its concatenation, else the sentinel `"제목 없음"`. -/
def extractTitleTop (page_or_db : PageOrDb) : String :=
  match page_or_db.title with
  | some title_array =>
    if title_array ≠ [] then rich_text_to_plain_text title_array else "제목 없음"
  | none => "제목 없음"

/-- `extract_title(page_or_db)`: the `properties` scan (whose hit returns its
concatenated plain text immediately), falling through to the top-level
`title` check and then the sentinel. -/
def extract_title (page_or_db : PageOrDb) : String :=
  match page_or_db.properties with
  | some props =>
    match firstTitleHit props with
    | some title_array => rich_text_to_plain_text title_array
    | none => extractTitleTop page_or_db
  | none => extractTitleTop page_or_db

/-- The Python `line.startswith(p)`. -/
def startswith (s p : String) : Bool :=
  p.data.isPrefixOf s.data

/-- The Python `line[n:]`. -/
def pyDrop (s : String) (n : Nat) : String :=
  ⟨s.data.drop n⟩

/-- The ASCII whitespace characters removed by the Python `str.strip()`. -/
def isPySpace (c : Char) : Bool :=
  c == ' ' || c == '\t' || c == '\n' || c == '\r' || c == '\x0b' || c == '\x0c'

/-- The Python `line.strip()`: drop surrounding whitespace. -/
def pyStrip (s : String) : String :=
  ⟨((s.data.dropWhile isPySpace).reverse.dropWhile isPySpace).reverse⟩

/-- `text.split("\n")` on the character list: split at every newline, keeping
empty segments (so `""` splits to `[""]` and a trailing newline yields a
trailing empty segment, exactly as in Python). -/
def splitNl : List Char → List (List Char)
  | [] => [[]]
  | c :: cs =>
    if c = '\n' then [] :: splitNl cs
    else
      match splitNl cs with
      | [] => [[c]]
      | seg :: rest => (c :: seg) :: rest

/-- The Python `text.split("\n")`. -/
def pySplitNl (s : String) : List String :=
  (splitNl s.data).map String.mk

/-- A single-span rich_text array as written by the encoder:
`[{"type": "text", "text": {"content": s}}]`. -/
def encSpan (s : String) : List RichTextSpan :=
  [{ content := some s }]

/-- The per-line dispatch of `text_to_blocks`, in the order the source tests them:
`"# "`, then `"## "`, then `"### "`, then `"- "`, else paragraph. -/
def parseLine (line : String) : Block :=
  if startswith line "# " then
    { type := some "heading_1", payload := some { rich_text := some (encSpan (pyDrop line 2)) } }
  else if startswith line "## " then
    { type := some "heading_2", payload := some { rich_text := some (encSpan (pyDrop line 3)) } }
  else if startswith line "### " then
    { type := some "heading_3", payload := some { rich_text := some (encSpan (pyDrop line 4)) } }
  else if startswith line "- " then
    { type := some "bulleted_list_item", payload := some { rich_text := some (encSpan (pyDrop line 2)) } }
  else
    { type := some "paragraph", payload := some { rich_text := some (encSpan line) } }

/-- The same per-line dispatch in the priority order stated by the spec
(§4.3): `"### "`, then `"## "`, then `"# "`, then `"- "`, else paragraph.
Written from the wording of the spec, for comparison with `parseLine` (claim C10). -/
def parseLineSpecOrder (line : String) : Block :=
  if startswith line "### " then
    { type := some "heading_3", payload := some { rich_text := some (encSpan (pyDrop line 4)) } }
  else if startswith line "## " then
    { type := some "heading_2", payload := some { rich_text := some (encSpan (pyDrop line 3)) } }
  else if startswith line "# " then
    { type := some "heading_1", payload := some { rich_text := some (encSpan (pyDrop line 2)) } }
  else if startswith line "- " then
    { type := some "bulleted_list_item", payload := some { rich_text := some (encSpan (pyDrop line 2)) } }
  else
    { type := some "paragraph", payload := some { rich_text := some (encSpan line) } }

/-- `text_to_blocks(text)`: split on `"\n"`, strip each line, skip blank
lines, and classify each remaining line by its literal marker. -/
def text_to_blocks (text : String) : List Block :=
  (pySplitNl text).filterMap (fun l =>
    let line := pyStrip l
    if line = "" then none else some (parseLine line))

/-- The Python exceptions that can surface out of the conversion routines and
the external client: an error raised by the external document API (carrying
its message), a `KeyError` on a missing dictionary key (carrying the key; its
`str` form is the quoted key), and `RecursionError` (the decoder recursion
through child fetches is bounded in Python only by the interpreter recursion
limit, modelled by the fuel argument below). -/
inductive PyErr where
  | apiError (msg : String)
  | keyError (key : String)
  | recursionError
  deriving DecidableEq

/-- The Python `str(e)` for the exceptions above, as interpolated into the
handler error strings. -/
def pyStr : PyErr → String
  | .apiError msg => msg
  | .keyError key => "\x27" ++ key ++ "\x27"
  | .recursionError => "maximum recursion depth exceeded"

/-- The own-text part contributed by one block in the `blocks_to_text` loop:
the `if block_type == ... / elif ...` chain of the source, in source
order.  `some t` means the loop appends `t` to `text_parts`; `none` means the
kind of the block is unrecognized and nothing is appended; `.error` models the
`KeyError` a bare `block[...]` access raises on a missing key. -/
def blockOwnPart (block : Block) : Except PyErr (Option String) :=
  let block_type := block.type
  if block_type = some "paragraph" then
    match block.payload with
    | none => .error (.keyError "paragraph")
    | some p =>
      match p.rich_text with
      | none => .error (.keyError "rich_text")
      | some rts => .ok (some (rich_text_to_plain_text rts))
  else if block_type = some "heading_1" then
    match block.payload with
    | none => .error (.keyError "heading_1")
    | some p =>
      match p.rich_text with
      | none => .error (.keyError "rich_text")
      | some rts => .ok (some ("# " ++ rich_text_to_plain_text rts))
  else if block_type = some "heading_2" then
    match block.payload with
    | none => .error (.keyError "heading_2")
    | some p =>
      match p.rich_text with
      | none => .error (.keyError "rich_text")
      | some rts => .ok (some ("## " ++ rich_text_to_plain_text rts))
  else if block_type = some "heading_3" then
    match block.payload with
    | none => .error (.keyError "heading_3")
    | some p =>
      match p.rich_text with
      | none => .error (.keyError "rich_text")
      | some rts => .ok (some ("### " ++ rich_text_to_plain_text rts))
  else if block_type = some "bulleted_list_item" then
    match block.payload with
    | none => .error (.keyError "bulleted_list_item")
    | some p =>
      match p.rich_text with
      | none => .error (.keyError "rich_text")
      | some rts => .ok (some ("- " ++ rich_text_to_plain_text rts))
  else if block_type = some "numbered_list_item" then
    match block.payload with
    | none => .error (.keyError "numbered_list_item")
    | some p =>
      match p.rich_text with
      | none => .error (.keyError "rich_text")
      | some rts => .ok (some ("1. " ++ rich_text_to_plain_text rts))
  else if block_type = some "to_do" then
    match block.payload with
    | none => .error (.keyError "to_do")
    | some p =>
      match p.rich_text with
      | none => .error (.keyError "rich_text")
      | some rts =>
        match p.checked with
        | none => .error (.keyError "checked")
        | some ck => .ok (some ((if ck then "✅" else "☐") ++ " " ++ rich_text_to_plain_text rts))
  else if block_type = some "code" then
    match block.payload with
    | none => .error (.keyError "code")
    | some p =>
      match p.rich_text with
      | none => .error (.keyError "rich_text")
      | some rts =>
        .ok (some ("```" ++ p.language.getD "" ++ "\n" ++ rich_text_to_plain_text rts ++ "\n```"))
  else
    .ok none

/-- The children fetcher of the decoder: `notion_client.blocks.children.list(id)`
followed by `["results"]`, supplied by the external collaborator. -/
def Fetch : Type :=
  String → Except PyErr (List Block)

/-- The parts contributed by a single block in the `blocks_to_text` loop: its
own text, then — when `block.get("has_children")` is truthy — the recursively
decoded child text (appended only when non-empty), with the recursive decode
of the fetched children supplied as `rec`.  Fetch failures and `KeyError`s
abort the whole decode. -/
def oneBlockParts (fetch : Fetch) (rec : List Block → Except PyErr (List String))
    (b : Block) : Except PyErr (List String) :=
  match blockOwnPart b with
  | .error e => .error e
  | .ok own =>
    let ownList := match own with | some t => [t] | none => []
    if b.has_children then
      match fetch b.id with
      | .error e => .error e
      | .ok children =>
        match rec children with
        | .error e => .error e
        | .ok cps =>
          let child_text := String.intercalate "\n\n" cps
          .ok (if child_text = "" then ownList else ownList ++ [child_text])
    else .ok ownList

/-- The `text_parts` accumulation of the `blocks_to_text` loop over one block
list, with the recursive decode of child lists supplied as `rec`. -/
def listPartsGo (fetch : Fetch) (rec : List Block → Except PyErr (List String)) :
    List Block → Except PyErr (List String)
  | [] => .ok []
  | b :: bs =>
    match oneBlockParts fetch rec b with
    | .error e => .error e
    | .ok ps =>
      match listPartsGo fetch rec bs with
      | .error e => .error e
      | .ok rest => .ok (ps ++ rest)

/-- The `text_parts` accumulation of `blocks_to_text`, with `fuel` bounding
the recursion depth through child fetches (the Python recursion, bounded by the
interpreter recursion limit; exhaustion models `RecursionError` at the
recursive call). -/
def listParts (fetch : Fetch) : Nat → List Block → Except PyErr (List String)
  | 0, bs => listPartsGo fetch (fun _ => .error .recursionError) bs
  | fuel + 1, bs => listPartsGo fetch (listParts fetch fuel) bs

/-- The child-list decoder available at a given remaining depth. -/
def childRecOf (fetch : Fetch) : Nat → List Block → Except PyErr (List String)
  | 0 => fun _ => .error .recursionError
  | fuel + 1 => listParts fetch fuel

/-- `blocks_to_text(blocks, notion_client)`: `"\n\n".join(text_parts)` over the
loop above. -/
def blocks_to_text (fetch : Fetch) (fuel : Nat) (blocks : List Block) : Except PyErr String :=
  (listParts fetch fuel blocks).map (String.intercalate "\n\n")

/-- The block kinds recognized by the dispatch chain of the decoder. -/
def recognizedKinds : List String :=
  ["paragraph", "heading_1", "heading_2", "heading_3",
   "bulleted_list_item", "numbered_list_item", "to_do", "code"]

/-- A JSON value, used for the opaque payloads the handlers pass through or
format (`filter_condition`, `sorts`, caller-supplied database-entry
properties). -/
inductive Json where
  | null
  | bool (b : Bool)
  | num (n : Int)
  | str (s : String)
  | arr (xs : List Json)
  | obj (kvs : List (String × Json))

/-- Python truthiness of an optional string argument (`if title:` in the
source): `None` and `""` are falsy. -/
def strTruthy : Option String → Bool
  | none => false
  | some s => !(s == "")

/-- Python truthiness of an optional JSON argument (`if filter_condition:`):
`None`, `False`, `0`, `""`, `[]` and an empty dict are falsy. -/
def jsonTruthy : Option Json → Bool
  | none => false
  | some .null => false
  | some (.bool b) => b
  | some (.num n) => !(n == 0)
  | some (.str s) => !(s == "")
  | some (.arr xs) => !xs.isEmpty
  | some (.obj kvs) => !kvs.isEmpty

/-- The search filter object `{"value": filter_type, "property": "object"}`. -/
structure FilterObj where
  value : String
  property : String
  deriving DecidableEq

/-- The `parent` argument of `pages.create`: `{"page_id": id}` or
`{"database_id": id}`. -/
inductive ParentRef where
  | pageId (id : String)
  | databaseId (id : String)
  deriving DecidableEq

/-- The `properties` argument passed to `pages.create` / `pages.update`:
either the title-only object `{"title": {"title": [{"text": {"content": s}}]}}`
built by the handlers, or a caller-supplied mapping passed through unchanged
by `create_database_entry`. -/
inductive PagePropsArg where
  | titleObj (content : String)
  | passthrough (props : Json)

/-- A page (or database) record as returned by the external API, with the
fields the handlers read: `id`, `url`, timestamps, and the title-bearing part
consumed by `extract_title`. -/
structure PageRecord where
  object : String := ""
  id : String := ""
  url : String := ""
  created_time : String := ""
  last_edited_time : String := ""
  record : PageOrDb := {}

/-- A `search` / `databases.query` response: the handlers read only
`results`. -/
structure ResultsResponse where
  results : List PageRecord := []

/-- A `blocks.children.list` response: the handlers read only `results`. -/
structure ChildrenResponse where
  results : List Block := []

/-- One call to the external document API, recorded in the handler call
trace. -/
inductive ApiCall where
  | search (query : String) (filter : Option FilterObj)
  | pagesRetrieve (page_id : String)
  | blocksChildrenList (block_id : String)
  | pagesCreate (parent : ParentRef) (properties : PagePropsArg)
  | pagesUpdate (page_id : String) (properties : PagePropsArg)
  | blocksChildrenAppend (block_id : String) (children : List Block)
  | databasesQuery (database_id : String) (filter sorts : Option Json)

/-- The external document API client (`notion_client.Client`), as a record of
operations.  Each operation either returns its response or raises. -/
structure Client where
  search : String → Option FilterObj → Except PyErr ResultsResponse
  pagesRetrieve : String → Except PyErr PageRecord
  blocksChildrenList : String → Except PyErr ChildrenResponse
  pagesCreate : ParentRef → PagePropsArg → Except PyErr PageRecord
  pagesUpdate : String → PagePropsArg → Except PyErr PageRecord
  blocksChildrenAppend : String → List Block → Except PyErr Unit
  databasesQuery : String → Option Json → Option Json → Except PyErr ResultsResponse

/-- The result of running a handler body: the value or the first exception,
together with the trace of external API calls issued up to that point
(the side effects of the Python methods, passed explicitly). -/
structure HM (α : Type) where
  res : Except PyErr α
  calls : List ApiCall

instance : Monad HM where
  pure a := ⟨.ok a, []⟩
  bind m f :=
    match m.res with
    | .error e => ⟨.error e, m.calls⟩
    | .ok a =>
      let r := f a
      ⟨r.res, m.calls ++ r.calls⟩

/-- Issue one external API call: record it and surface its outcome. -/
def callApi {α : Type} (c : ApiCall) (r : Except PyErr α) : HM α :=
  ⟨r, [c]⟩

/-- Lift a pure fallible computation (no API call of its own is recorded;
the child fetches of the decoder happen through the client functionally). -/
def liftEx {α : Type} (r : Except PyErr α) : HM α :=
  ⟨r, []⟩

/-- JSON string escaping as performed by `json.dumps`. -/
def jsonEscapeChar (c : Char) : String :=
  if c = '"' then "\\\""
  else if c = '\\' then "\\\\"
  else if c = '\n' then "\\n"
  else if c = '\t' then "\\t"
  else if c = '\r' then "\\r"
  else if c.val < 32 then
    "\\u" ++ (Nat.toDigits 16 c.val.toNat).foldl (fun acc d => acc.push d)
      (String.mk (List.replicate (4 - (Nat.toDigits 16 c.val.toNat).length) '0'))
  else String.singleton c

/-- `json.dumps` of a string (with `ensure_ascii=False`). -/
def jsonQuote (s : String) : String :=
  "\"" ++ String.join (s.data.map jsonEscapeChar) ++ "\""

/-- Indentation of `n` levels at `indent=2`. -/
def jsonIndent (n : Nat) : String :=
  String.mk (List.replicate (2 * n) ' ')

mutual

/-- `json.dumps(v, ensure_ascii=False, indent=2)`, rendered at nesting level
`lvl`. -/
def jsonDump (lvl : Nat) : Json → String
  | .null => "null"
  | .bool b => if b then "true" else "false"
  | .num n => toString n
  | .str s => jsonQuote s
  | .arr [] => "[]"
  | .arr (x :: xs) =>
    "[\n" ++ jsonDumpItems (lvl + 1) (x :: xs) ++ "\n" ++ jsonIndent lvl ++ "]"
  | .obj [] => "\x7b\x7d"
  | .obj (kv :: kvs) =>
    "\x7b\n" ++ jsonDumpFields (lvl + 1) (kv :: kvs) ++ "\n" ++ jsonIndent lvl ++ "\x7d"

def jsonDumpItems (lvl : Nat) : List Json → String
  | [] => ""
  | [x] => jsonIndent lvl ++ jsonDump lvl x
  | x :: y :: xs => jsonIndent lvl ++ jsonDump lvl x ++ ",\n" ++ jsonDumpItems lvl (y :: xs)

def jsonDumpFields (lvl : Nat) : List (String × Json) → String
  | [] => ""
  | [(k, v)] => jsonIndent lvl ++ jsonQuote k ++ ": " ++ jsonDump lvl v
  | (k, v) :: kv :: kvs =>
    jsonIndent lvl ++ jsonQuote k ++ ": " ++ jsonDump lvl v ++ ",\n" ++ jsonDumpFields lvl (kv :: kvs)

end

/-- The modelled fields of a rich-text span, as a JSON value (for the
formatted output of `properties` by the handlers). -/
def spanJson (rt : RichTextSpan) : Json :=
  .obj ((match rt.plain_text with
         | some s => [("plain_text", Json.str s)]
         | none => []) ++
        (match rt.content with
         | some s => [("text", Json.obj [("content", Json.str s)])]
         | none => []))

/-- The modelled fields of a property value, as a JSON value. -/
def propValueJson (pv : PropValue) : Json :=
  .obj ((match pv.type with
         | some t => [("type", Json.str t)]
         | none => []) ++
        (match pv.title with
         | some arr => [("title", Json.arr (arr.map spanJson))]
         | none => []))

/-- `page.get("properties", {})`, as a JSON value. -/
def propertiesJson (rec : PageOrDb) : Json :=
  match rec.properties with
  | none => .obj []
  | some props => .obj (props.map (fun kv => (kv.1, propValueJson kv.2)))

namespace NotionService

/-- The try-block of `NotionService.search`. -/
def searchBody (c : Client) (query : String) (filter_type : Option String) : HM String := do
  let filter : Option FilterObj :=
    if strTruthy filter_type then some ⟨filter_type.getD "", "object"⟩ else none
  let results ← callApi (.search query filter) (c.search query filter)
  let formatted : List Json := results.results.filterMap (fun r =>
    if r.object = "page" then
      some (.obj [("id", .str r.id), ("type", .str "page"),
                  ("title", .str (extract_title r.record)), ("url", .str r.url)])
    else if r.object = "database" then
      some (.obj [("id", .str r.id), ("type", .str "database"),
                  ("title", .str (extract_title r.record)), ("url", .str r.url)])
    else none)
  pure ("검색 결과 (" ++ toString formatted.length ++ "개):\n" ++ jsonDump 0 (.arr formatted))

/-- The try-block of `NotionService.get_page_info`. -/
def getPageInfoBody (c : Client) (page_id : String) : HM String := do
  let page ← callApi (.pagesRetrieve page_id) (c.pagesRetrieve page_id)
  let title := extract_title page.record
  let page_info : Json :=
    .obj [("id", .str page.id), ("title", .str title), ("url", .str page.url),
          ("created_time", .str page.created_time),
          ("last_edited_time", .str page.last_edited_time),
          ("properties", propertiesJson page.record)]
  pure ("페이지 정보:\n" ++ jsonDump 0 page_info)

/-- The try-block of `NotionService.get_page_content`.  The child fetches of the decoder go through `c.blocksChildrenList` (reading `["results"]`);
`fuel` models the interpreter recursion limit on that recursion. -/
def getPageContentBody (c : Client) (fuel : Nat) (page_id : String) : HM String := do
  let page ← callApi (.pagesRetrieve page_id) (c.pagesRetrieve page_id)
  let title := extract_title page.record
  let blocks ← callApi (.blocksChildrenList page_id) (c.blocksChildrenList page_id)
  let content ← liftEx (blocks_to_text
    (fun bid => (c.blocksChildrenList bid).map (fun r => r.results)) fuel blocks.results)
  pure ("# " ++ title ++ "\n\n" ++ content)

/-- The try-block of `NotionService.create_page`. -/
def createPageBody (c : Client) (parent_id title content : String) : HM String := do
  let new_page ← callApi (.pagesCreate (.pageId parent_id) (.titleObj title))
    (c.pagesCreate (.pageId parent_id) (.titleObj title))
  if strTruthy (some content) then
    let blocks := text_to_blocks content
    if blocks ≠ [] then
      let _ ← callApi (.blocksChildrenAppend new_page.id blocks)
        (c.blocksChildrenAppend new_page.id blocks)
  pure ("페이지가 성공적으로 생성되었습니다!\nID: " ++ new_page.id ++ "\nURL: " ++ new_page.url)

/-- The try-block of `NotionService.update_page`. -/
def updatePageBody (c : Client) (page_id : String) (title content : Option String) :
    HM String := do
  if strTruthy title then
    let _ ← callApi (.pagesUpdate page_id (.titleObj (title.getD "")))
      (c.pagesUpdate page_id (.titleObj (title.getD "")))
  if strTruthy content then
    let blocks := text_to_blocks (content.getD "")
    if blocks ≠ [] then
      let _ ← callApi (.blocksChildrenAppend page_id blocks)
        (c.blocksChildrenAppend page_id blocks)
  pure "페이지가 성공적으로 업데이트되었습니다!"

/-- The try-block of `NotionService.query_database`. -/
def queryDatabaseBody (c : Client) (database_id : String)
    (filter_condition sorts : Option Json) : HM String := do
  let filter := if jsonTruthy filter_condition then filter_condition else none
  let sortsArg := if jsonTruthy sorts then sorts else none
  let results ← callApi (.databasesQuery database_id filter sortsArg)
    (c.databasesQuery database_id filter sortsArg)
  let formatted : List Json := results.results.map (fun page =>
    .obj [("id", .str page.id), ("title", .str (extract_title page.record)),
          ("url", .str page.url), ("properties", propertiesJson page.record)])
  pure ("데이터베이스 쿼리 결과 (" ++ toString formatted.length ++ "개):\n" ++
    jsonDump 0 (.arr formatted))

/-- The try-block of `NotionService.create_database_entry`. -/
def createDatabaseEntryBody (c : Client) (database_id : String) (properties : Json) :
    HM String := do
  let new_page ← callApi (.pagesCreate (.databaseId database_id) (.passthrough properties))
    (c.pagesCreate (.databaseId database_id) (.passthrough properties))
  pure ("데이터베이스 항목이 성공적으로 생성되었습니다!\nID: " ++ new_page.id ++
    "\nURL: " ++ new_page.url)

/-- The `try ... except Exception as e: return f"...: {str(e)}"` boundary
shared by every handler: a successful body returns its message, a raised
exception is caught and stringified after the fixed message head of the handler.
The second component is the trace of external API calls issued. -/
def runHandler (errHead : String) (body : HM String) : String × List ApiCall :=
  match body.res with
  | .ok s => (s, body.calls)
  | .error e => (errHead ++ pyStr e, body.calls)

/-- `NotionService.search`. -/
def search (c : Client) (query : String) (filter_type : Option String) :
    String × List ApiCall :=
  runHandler "검색 중 오류가 발생했습니다: " (searchBody c query filter_type)

/-- `NotionService.get_page_info`. -/
def get_page_info (c : Client) (page_id : String) : String × List ApiCall :=
  runHandler "페이지 조회 중 오류가 발생했습니다: " (getPageInfoBody c page_id)

/-- `NotionService.get_page_content`. -/
def get_page_content (c : Client) (fuel : Nat) (page_id : String) : String × List ApiCall :=
  runHandler "페이지 내용 조회 중 오류가 발생했습니다: " (getPageContentBody c fuel page_id)

/-- `NotionService.create_page` (the `content` argument defaults to `""`). -/
def create_page (c : Client) (parent_id title content : String) : String × List ApiCall :=
  runHandler "페이지 생성 중 오류가 발생했습니다: " (createPageBody c parent_id title content)

/-- `NotionService.update_page`. -/
def update_page (c : Client) (page_id : String) (title content : Option String) :
    String × List ApiCall :=
  runHandler "페이지 업데이트 중 오류가 발생했습니다: " (updatePageBody c page_id title content)

/-- `NotionService.query_database`. -/
def query_database (c : Client) (database_id : String)
    (filter_condition sorts : Option Json) : String × List ApiCall :=
  runHandler "데이터베이스 쿼리 중 오류가 발생했습니다: "
    (queryDatabaseBody c database_id filter_condition sorts)

/-- `NotionService.create_database_entry`. -/
def create_database_entry (c : Client) (database_id : String) (properties : Json) :
    String × List ApiCall :=
  runHandler "데이터베이스 항목 생성 중 오류가 발생했습니다: "
    (createDatabaseEntryBody c database_id properties)

end NotionService

/-- A client whose every operation raises `e` (used to exercise the
handler error boundary). -/
def failClient (e : PyErr) : Client where
  search := fun _ _ => .error e
  pagesRetrieve := fun _ => .error e
  blocksChildrenList := fun _ => .error e
  pagesCreate := fun _ _ => .error e
  pagesUpdate := fun _ _ => .error e
  blocksChildrenAppend := fun _ _ => .error e
  databasesQuery := fun _ _ _ => .error e

deriving instance DecidableEq for Except

/-! Helper lemmas shared by the claim theorems. -/

lemma listParts_eq_go (fetch : Fetch) (fuel : Nat) (bs : List Block) :
    listParts fetch fuel bs = listPartsGo fetch (childRecOf fetch fuel) bs := by
  cases fuel <;> rfl

lemma listPartsGo_cons (fetch : Fetch) (rec : List Block → Except PyErr (List String))
    (b : Block) (bs : List Block) :
    listPartsGo fetch rec (b :: bs) =
      match oneBlockParts fetch rec b with
      | .error e => .error e
      | .ok ps =>
        match listPartsGo fetch rec bs with
        | .error e => .error e
        | .ok rest => .ok (ps ++ rest) := rfl

lemma listPartsGo_append (fetch : Fetch) (rec : List Block → Except PyErr (List String))
    (xs ys : List Block) (ps qs : List String)
    (hx : listPartsGo fetch rec xs = .ok ps) (hy : listPartsGo fetch rec ys = .ok qs) :
    listPartsGo fetch rec (xs ++ ys) = .ok (ps ++ qs) := by
  induction xs generalizing ps with
  | nil =>
    cases hx
    simpa using hy
  | cons b bs ih =>
    rw [listPartsGo_cons] at hx
    rw [List.cons_append, listPartsGo_cons]
    cases h1 : oneBlockParts fetch rec b with
    | error e => rw [h1] at hx; cases hx
    | ok os =>
      rw [h1] at hx
      cases h2 : listPartsGo fetch rec bs with
      | error e => rw [h2] at hx; cases hx
      | ok rest =>
        rw [h2] at hx
        cases hx
        rw [ih rest h2]
        simp

lemma listParts_append (fetch : Fetch) (fuel : Nat) (xs ys : List Block) (ps qs : List String)
    (hx : listParts fetch fuel xs = .ok ps) (hy : listParts fetch fuel ys = .ok qs) :
    listParts fetch fuel (xs ++ ys) = .ok (ps ++ qs) := by
  rw [listParts_eq_go] at hx hy ⊢
  exact listPartsGo_append fetch _ xs ys ps qs hx hy

lemma oneBlockParts_noChildren {fetch : Fetch} {rec : List Block → Except PyErr (List String)}
    {b : Block} {o : Option String}
    (hop : blockOwnPart b = .ok o) (hch : b.has_children = false) :
    oneBlockParts fetch rec b = .ok (match o with | some t => [t] | none => []) := by
  rw [oneBlockParts]
  simp [hop, hch]
  cases o <;> rfl

lemma blockOwnPart_numbered {b : Block} {p : BlockPayload} {rts : List RichTextSpan}
    (htype : b.type = some "numbered_list_item") (hpay : b.payload = some p)
    (hrt : p.rich_text = some rts) :
    blockOwnPart b = .ok (some ("1. " ++ rich_text_to_plain_text rts)) := by
  simp [blockOwnPart, htype, hpay, hrt]

lemma blockOwnPart_unrecognized {b : Block} {k : String}
    (htype : b.type = some k) (hk : k ∉ recognizedKinds) :
    blockOwnPart b = .ok none := by
  simp [recognizedKinds] at hk
  obtain ⟨h1, h2, h3, h4, h5, h6, h7, h8⟩ := hk
  simp [blockOwnPart, htype, h1, h2, h3, h4, h5, h6, h7, h8]

lemma firstTitleHit_skip :
    ∀ (pre : List (String × PropValue)) (name : String) (pv : PropValue)
      (rest : List (String × PropValue)) (arr : List RichTextSpan),
      (∀ q ∈ pre, q.2.type ≠ some "title" ∨ q.2.title.getD [] = []) →
      pv.type = some "title" → pv.title = some arr → arr ≠ [] →
      firstTitleHit (pre ++ (name, pv) :: rest) = some arr
  | [], name, pv, rest, arr, _, htype, harr, hne => by
    simp [firstTitleHit, htype, harr, hne]
  | q :: pre, name, pv, rest, arr, hpre, htype, harr, hne => by
    obtain ⟨qn, qv⟩ := q
    have ih := firstTitleHit_skip pre name pv rest arr
      (fun x hx => hpre x (List.mem_cons_of_mem _ hx)) htype harr hne
    rcases hpre (qn, qv) (List.mem_cons_self _ _) with hq | hq
    · rw [List.cons_append]
      simp only [firstTitleHit]
      rw [if_neg (by simpa using hq)]
      exact ih
    · by_cases ht : qv.type = some "title"
      · rw [List.cons_append]
        simp only [firstTitleHit]
        rw [if_pos (by simpa using ht)]
        simp only [hq] at *
        rw [if_neg (by simp [hq])]
        exact ih
      · rw [List.cons_append]
        simp only [firstTitleHit]
        rw [if_neg (by simpa using ht)]
        exact ih

lemma intercalate_single (s x : String) : String.intercalate s [x] = x := by
  simp [String.intercalate, String.intercalate.go]

lemma pfx2 {l : List Char} (h : ['#', ' '].isPrefixOf l = true) :
    ∃ t, l = '#' :: ' ' :: t := by
  match l with
  | [] => simp [List.isPrefixOf] at h
  | [x] => simp [List.isPrefixOf] at h
  | x :: y :: t =>
    simp [List.isPrefixOf] at h
    obtain ⟨rfl, rfl⟩ := h
    exact ⟨t, rfl⟩

lemma pfx3 {l : List Char} (h : ['#', '#', ' '].isPrefixOf l = true) :
    ∃ t, l = '#' :: '#' :: ' ' :: t := by
  match l with
  | [] => simp [List.isPrefixOf] at h
  | [x] => simp [List.isPrefixOf] at h
  | [x, y] => simp [List.isPrefixOf] at h
  | x :: y :: z :: t =>
    simp [List.isPrefixOf] at h
    obtain ⟨rfl, rfl, rfl⟩ := h
    exact ⟨t, rfl⟩

lemma hash1_elim {line : String} (h : startswith line "# " = true) :
    startswith line "## " = false ∧ startswith line "### " = false ∧
      startswith line "- " = false := by
  have h' : ['#', ' '].isPrefixOf line.data = true := h
  obtain ⟨t, hl⟩ := pfx2 h'
  refine ⟨?_, ?_, ?_⟩
  · show ['#', '#', ' '].isPrefixOf line.data = false
    rw [hl]; simp [List.isPrefixOf]
  · show ['#', '#', '#', ' '].isPrefixOf line.data = false
    rw [hl]; simp [List.isPrefixOf]
  · show ['-', ' '].isPrefixOf line.data = false
    rw [hl]; simp [List.isPrefixOf]

lemma hash2_elim {line : String} (h : startswith line "## " = true) :
    startswith line "### " = false ∧ startswith line "- " = false := by
  have h' : ['#', '#', ' '].isPrefixOf line.data = true := h
  obtain ⟨t, hl⟩ := pfx3 h'
  constructor
  · show ['#', '#', '#', ' '].isPrefixOf line.data = false
    rw [hl]; simp [List.isPrefixOf]
  · show ['-', ' '].isPrefixOf line.data = false
    rw [hl]; simp [List.isPrefixOf]

/-! Claim theorems. -/

/-- Claim C1, counterexample: encoding `"# Title\n- a\n- b"` and then decoding
the resulting blocks (no block has children, so the fetcher is never used)
does not reproduce `"# Title\n\n- a\n\n- b"`: the encoder stores the text of each line
 under `text.content`, while the flattener of the decoder reads only
`plain_text`. -/
theorem claim1_counterexample :
    blocks_to_text (fun _ => .error (.apiError "unused")) 0
        (text_to_blocks "# Title\n- a\n- b") ≠
      .ok "# Title\n\n- a\n\n- b" := by
  decide

/-- Claim C1 (amended): encoding `"# Title\n- a\n- b"` and then decoding the
resulting blocks yields `"# \n\n- \n\n- "` — the block structure and markers
survive the round trip but the text of every span is dropped, because the encoder
writes the text under `text.content` and the decoder reads `plain_text`
(populated only by the external API). -/
theorem claim1_encode_decode (fetch : Fetch) (fuel : Nat) :
    blocks_to_text fetch fuel (text_to_blocks "# Title\n- a\n- b") =
      .ok "# \n\n- \n\n- " := by
  cases fuel <;> rfl

/-- Claim C2, counterexample: on a record with neither a `properties` mapping
nor a top-level `title` field the extractor returns the Korean sentinel
`"제목 없음"`, not the string `"(untitled)"`. -/
theorem claim2_counterexample :
    extract_title {} = "제목 없음" ∧ extract_title {} ≠ "(untitled)" := by
  decide

/-- Claim C2 (amended): for every record that has no title-typed property
yielding a title and no top-level title field yielding a title, the title
extractor returns the fixed sentinel string `"제목 없음"` (Korean for "no
title"). -/
theorem claim2_sentinel (p : PageOrDb)
    (hprops : ∀ props, p.properties = some props → firstTitleHit props = none)
    (htitle : ∀ arr, p.title = some arr → arr = []) :
    extract_title p = "제목 없음" := by
  have htop : extractTitleTop p = "제목 없음" := by
    unfold extractTitleTop
    cases ht : p.title with
    | none => rfl
    | some arr =>
      have : arr = [] := htitle arr ht
      subst this
      simp
  unfold extract_title
  cases hp : p.properties with
  | none => exact htop
  | some props =>
    show (match firstTitleHit props with
          | some title_array => rich_text_to_plain_text title_array
          | none => extractTitleTop p) = "제목 없음"
    rw [hprops props hp]
    exact htop

/-- Claim C2 witness: the empty record satisfies both hypotheses and gets the
sentinel. -/
theorem claim2_witness : extract_title {} = "제목 없음" :=
  claim2_sentinel {} (fun _ h => by cases h) (fun _ h => by cases h)

/-- Claim C3, counterexample: a record whose only property is title-typed with
the non-empty span list `[{plain_text: ""}]` (concatenation empty) makes the
extractor return `""` from the page-shaped path — it does not fall through to
the sentinel, contrary to the claim. -/
theorem claim3_counterexample :
    extract_title { properties := some [("Name",
        { type := some "title", title := some [{ plain_text := some "" }] : PropValue })] } = ""
      ∧ ("" : String) ≠ "제목 없음" ∧ ("" : String) ≠ "(untitled)" := by
  decide

/-- Claim C3 (amended): wherever the scan of the properties mapping reaches a
title-typed entry carrying a non-empty span list — every earlier entry being
non-title-typed or title-typed with an empty array, exactly the entries the
scan passes over — the page-shaped path returns the concatenation of that list
immediately, even when that concatenation is empty: the code tests the list
for non-emptiness, not the concatenation, so such a record yields `""` rather
than falling through to the top-level check and the sentinel. -/
theorem claim3_page_path (pre : List (String × PropValue)) (name : String) (pv : PropValue)
    (rest : List (String × PropValue)) (top : Option (List RichTextSpan))
    (arr : List RichTextSpan)
    (hpre : ∀ q ∈ pre, q.2.type ≠ some "title" ∨ q.2.title.getD [] = [])
    (htype : pv.type = some "title") (harr : pv.title = some arr) (hne : arr ≠ []) :
    extract_title { properties := some (pre ++ (name, pv) :: rest), title := top } =
      rich_text_to_plain_text arr := by
  show (match firstTitleHit (pre ++ (name, pv) :: rest) with
        | some title_array => rich_text_to_plain_text title_array
        | none => extractTitleTop
            { properties := some (pre ++ (name, pv) :: rest), title := top }) =
      rich_text_to_plain_text arr
  rw [firstTitleHit_skip pre name pv rest arr hpre htype harr hne]

/-- Claim C3 witness: a record whose title-typed entry with spans
`[{plain_text: ""}]` is preceded by a non-title entry and by a title-typed
entry with an empty array still returns the empty concatenation from the page
path. -/
theorem claim3_witness :
    extract_title
        { properties :=
            some ([("Other", { type := some "multi_select" : PropValue }),
                   ("EmptyTitle", { type := some "title", title := some [] : PropValue })] ++
                  ("Name", { type := some "title",
                             title := some [{ plain_text := some "" }] : PropValue }) :: []),
          title := none } =
      rich_text_to_plain_text [{ plain_text := some "" }] :=
  claim3_page_path
    [("Other", { type := some "multi_select" }),
     ("EmptyTitle", { type := some "title", title := some [] })]
    "Name" { type := some "title", title := some [{ plain_text := some "" }] }
    [] none [{ plain_text := some "" }] (by decide) rfl rfl (by decide)

/-- Claim C4: encoding `"# H1\n## H2\n### H3\n- item\nplain text\n"` yields
exactly the five blocks heading_1 `"H1"`, heading_2 `"H2"`, heading_3 `"H3"`,
bulleted_list_item `"item"` and paragraph `"plain text"`, in order; the
trailing blank line produces no block. -/
theorem claim4_encoder :
    text_to_blocks "# H1\n## H2\n### H3\n- item\nplain text\n" =
      [{ type := some "heading_1",
         payload := some { rich_text := some [{ content := some "H1" }] } },
       { type := some "heading_2",
         payload := some { rich_text := some [{ content := some "H2" }] } },
       { type := some "heading_3",
         payload := some { rich_text := some [{ content := some "H3" }] } },
       { type := some "bulleted_list_item",
         payload := some { rich_text := some [{ content := some "item" }] } },
       { type := some "paragraph",
         payload := some { rich_text := some [{ content := some "plain text" }] } }] := by
  decide

/-- Claim C5: wherever a numbered_list_item block sits in a block sequence,
and however many numbered items precede it, the decoder renders its segment
as the literal `"1. "` followed by its flattened rich text — no running
counter exists in the code. -/
theorem claim5_numbered_literal (fetch : Fetch) (fuel : Nat) (bs1 bs2 : List Block)
    (b : Block) (p : BlockPayload) (rts : List RichTextSpan) (ps qs : List String)
    (htype : b.type = some "numbered_list_item") (hpay : b.payload = some p)
    (hrt : p.rich_text = some rts) (hch : b.has_children = false)
    (h1 : listParts fetch fuel bs1 = .ok ps) (h2 : listParts fetch fuel bs2 = .ok qs) :
    blocks_to_text fetch fuel (bs1 ++ b :: bs2) =
      .ok (String.intercalate "\n\n" (ps ++ ("1. " ++ rich_text_to_plain_text rts) :: qs)) := by
  have hb : oneBlockParts fetch (childRecOf fetch fuel) b =
      .ok ["1. " ++ rich_text_to_plain_text rts] :=
    oneBlockParts_noChildren (blockOwnPart_numbered htype hpay hrt) hch
  have hcons : listParts fetch fuel (b :: bs2) =
      .ok (("1. " ++ rich_text_to_plain_text rts) :: qs) := by
    rw [listParts_eq_go] at h2 ⊢
    rw [listPartsGo_cons, hb, h2]
    rfl
  have happ := listParts_append fetch fuel bs1 (b :: bs2) ps
    (("1. " ++ rich_text_to_plain_text rts) :: qs) h1 hcons
  unfold blocks_to_text
  rw [happ]
  rfl

/-- Claim C5 witness: three numbered items render `"1. x\n\n1. y\n\n1. z"` —
the second and third items still carry the literal `"1. "`. -/
theorem claim5_witness :
    blocks_to_text (fun _ => .error (.apiError "unused")) 0
        ([{ type := some "numbered_list_item",
            payload := some { rich_text := some [{ plain_text := some "x" }] } }] ++
          { type := some "numbered_list_item",
            payload := some { rich_text := some [{ plain_text := some "y" }] } : Block } ::
          [{ type := some "numbered_list_item",
             payload := some { rich_text := some [{ plain_text := some "z" }] } }]) =
      .ok (String.intercalate "\n\n"
        (["1. x"] ++ ("1. " ++ rich_text_to_plain_text [{ plain_text := some "y" }]) :: ["1. z"])) :=
  claim5_numbered_literal (fun _ => .error (.apiError "unused")) 0 _ _ _
    { rich_text := some [{ plain_text := some "y" }] } [{ plain_text := some "y" }]
    ["1. x"] ["1. z"] rfl rfl rfl rfl (by decide) (by decide)

/-- Claim C7: at every tool handler boundary, an exception raised by the
external document-API client (or anywhere inside the try-block) is caught and
turned into the human-readable error string of that handler, returned as a normal
result; no exception propagates to the caller (the handlers are total
functions into `String`). -/
theorem claim7_error_boundary (c : Client) (e : PyErr) :
    (∀ q ft, (NotionService.searchBody c q ft).res = .error e →
      (NotionService.search c q ft).1 = "검색 중 오류가 발생했습니다: " ++ pyStr e) ∧
    (∀ pid, (NotionService.getPageInfoBody c pid).res = .error e →
      (NotionService.get_page_info c pid).1 = "페이지 조회 중 오류가 발생했습니다: " ++ pyStr e) ∧
    (∀ fuel pid, (NotionService.getPageContentBody c fuel pid).res = .error e →
      (NotionService.get_page_content c fuel pid).1 =
        "페이지 내용 조회 중 오류가 발생했습니다: " ++ pyStr e) ∧
    (∀ pid t ct, (NotionService.createPageBody c pid t ct).res = .error e →
      (NotionService.create_page c pid t ct).1 = "페이지 생성 중 오류가 발생했습니다: " ++ pyStr e) ∧
    (∀ pid t ct, (NotionService.updatePageBody c pid t ct).res = .error e →
      (NotionService.update_page c pid t ct).1 =
        "페이지 업데이트 중 오류가 발생했습니다: " ++ pyStr e) ∧
    (∀ db f s, (NotionService.queryDatabaseBody c db f s).res = .error e →
      (NotionService.query_database c db f s).1 =
        "데이터베이스 쿼리 중 오류가 발생했습니다: " ++ pyStr e) ∧
    (∀ db pr, (NotionService.createDatabaseEntryBody c db pr).res = .error e →
      (NotionService.create_database_entry c db pr).1 =
        "데이터베이스 항목 생성 중 오류가 발생했습니다: " ++ pyStr e) := by
  refine ⟨fun q ft h => ?_, fun pid h => ?_, fun fuel pid h => ?_, fun pid t ct h => ?_,
    fun pid t ct h => ?_, fun db f s h => ?_, fun db pr h => ?_⟩ <;>
    simp [NotionService.search, NotionService.get_page_info, NotionService.get_page_content,
      NotionService.create_page, NotionService.update_page, NotionService.query_database,
      NotionService.create_database_entry, NotionService.runHandler, h]

/-- Claim C7 witness: against a client whose every operation raises, each of
the seven handlers returns its formatted error string. -/
theorem claim7_witness :
    ((NotionService.search (failClient (.apiError "boom")) "q" none).1 =
      "검색 중 오류가 발생했습니다: " ++ pyStr (.apiError "boom")) ∧
    ((NotionService.get_page_info (failClient (.apiError "boom")) "p").1 =
      "페이지 조회 중 오류가 발생했습니다: " ++ pyStr (.apiError "boom")) ∧
    ((NotionService.get_page_content (failClient (.apiError "boom")) 0 "p").1 =
      "페이지 내용 조회 중 오류가 발생했습니다: " ++ pyStr (.apiError "boom")) ∧
    ((NotionService.create_page (failClient (.apiError "boom")) "p" "T" "").1 =
      "페이지 생성 중 오류가 발생했습니다: " ++ pyStr (.apiError "boom")) ∧
    ((NotionService.update_page (failClient (.apiError "boom")) "p" (some "T") none).1 =
      "페이지 업데이트 중 오류가 발생했습니다: " ++ pyStr (.apiError "boom")) ∧
    ((NotionService.query_database (failClient (.apiError "boom")) "d" none none).1 =
      "데이터베이스 쿼리 중 오류가 발생했습니다: " ++ pyStr (.apiError "boom")) ∧
    ((NotionService.create_database_entry (failClient (.apiError "boom")) "d" Json.null).1 =
      "데이터베이스 항목 생성 중 오류가 발생했습니다: " ++ pyStr (.apiError "boom")) :=
  ⟨(claim7_error_boundary (failClient (.apiError "boom")) (.apiError "boom")).1 "q" none rfl,
   (claim7_error_boundary (failClient (.apiError "boom")) (.apiError "boom")).2.1 "p" rfl,
   (claim7_error_boundary (failClient (.apiError "boom")) (.apiError "boom")).2.2.1 0 "p" rfl,
   (claim7_error_boundary (failClient (.apiError "boom")) (.apiError "boom")).2.2.2.1
     "p" "T" "" rfl,
   (claim7_error_boundary (failClient (.apiError "boom")) (.apiError "boom")).2.2.2.2.1
     "p" (some "T") none rfl,
   (claim7_error_boundary (failClient (.apiError "boom")) (.apiError "boom")).2.2.2.2.2.1
     "d" none none rfl,
   (claim7_error_boundary (failClient (.apiError "boom")) (.apiError "boom")).2.2.2.2.2.2
     "d" Json.null rfl⟩

/-- Claim C8: `update_page` called with `title = ""` and `content = ""` (both
falsy) issues no external API call at all — its call trace is empty — and
still returns the success message, exactly as when both arguments are absent. -/
theorem claim8_update_page_empty (c : Client) (pid : String) :
    NotionService.update_page c pid (some "") (some "") =
        ("페이지가 성공적으로 업데이트되었습니다!", []) ∧
      NotionService.update_page c pid (some "") (some "") =
        NotionService.update_page c pid none none :=
  ⟨rfl, rfl⟩

/-- Claim C9: a block of an unrecognized kind with `has_children` set
contributes no own-text segment, but its children are still fetched and their
decoded text becomes the output — skipping an unsupported block does not skip
its descendants. -/
theorem claim9_unrecognized_children (fetch : Fetch) (fuel : Nat) (b : Block) (k : String)
    (cs : List Block) (ps : List String)
    (htype : b.type = some k) (hk : k ∉ recognizedKinds) (hch : b.has_children = true)
    (hfetch : fetch b.id = .ok cs) (hcs : listParts fetch fuel cs = .ok ps) :
    blocks_to_text fetch (fuel + 1) [b] = .ok (String.intercalate "\n\n" ps) := by
  have hop := blockOwnPart_unrecognized htype hk
  have hone : oneBlockParts fetch (listParts fetch fuel) b =
      .ok (if String.intercalate "\n\n" ps = "" then []
           else [String.intercalate "\n\n" ps]) := by
    rw [oneBlockParts, hop]
    simp [hch, hfetch, hcs]
  have hgo : listPartsGo fetch (listParts fetch fuel) [b] =
      .ok ((if String.intercalate "\n\n" ps = "" then []
            else [String.intercalate "\n\n" ps]) ++ []) := by
    rw [listPartsGo_cons, hone]
    rfl
  unfold blocks_to_text
  rw [listParts_eq_go]
  have hcr : childRecOf fetch (fuel + 1) = listParts fetch fuel := rfl
  rw [hcr, hgo, List.append_nil]
  by_cases hemp : String.intercalate "\n\n" ps = ""
  · rw [if_pos hemp]
    show Except.ok (String.intercalate "\n\n" []) = Except.ok (String.intercalate "\n\n" ps)
    rw [hemp]
    rfl
  · rw [if_neg hemp]
    show Except.ok (String.intercalate "\n\n" [String.intercalate "\n\n" ps]) =
      Except.ok (String.intercalate "\n\n" ps)
    rw [intercalate_single]

/-- Claim C9 witness: an unrecognized `toggle` block with one paragraph child
decodes to exactly the text of the child. -/
theorem claim9_witness :
    blocks_to_text
        (fun _ => .ok [{ type := some "paragraph",
                         payload := some
                           { rich_text := some [{ plain_text := some "child text" }] } }])
        1
        [{ type := some "toggle", has_children := true, id := "blk1" }] =
      .ok (String.intercalate "\n\n" ["child text"]) :=
  claim9_unrecognized_children
    (fun _ => .ok [{ type := some "paragraph",
                     payload := some
                       { rich_text := some [{ plain_text := some "child text" }] } }])
    0 { type := some "toggle", has_children := true, id := "blk1" } "toggle"
    [{ type := some "paragraph",
       payload := some { rich_text := some [{ plain_text := some "child text" }] } }]
    ["child text"] rfl (by decide) rfl rfl (by decide)

/-- Claim C10: on every trimmed non-blank line the dispatch order of the encoder
(`"# "`, `"## "`, `"### "`, `"- "`) classifies the line exactly as the spec
priority order (`"### "`, `"## "`, `"# "`, `"- "`): these space-terminated
markers are mutually exclusive on a single line, so both orders produce the
same block kind and remainder. -/
theorem claim10_dispatch_order (line : String) (_htrim : pyStrip line = line)
    (_hne : line ≠ "") : parseLine line = parseLineSpecOrder line := by
  unfold parseLine parseLineSpecOrder
  by_cases ha : startswith line "# " = true
  · obtain ⟨hb, hc, hd⟩ := hash1_elim ha
    simp [ha, hb, hc, hd]
  · by_cases hb : startswith line "## " = true
    · obtain ⟨hc, hd⟩ := hash2_elim hb
      simp [ha, hb, hc, hd]
    · by_cases hc : startswith line "### " = true
      · simp [ha, hb, hc]
      · by_cases hd : startswith line "- " = true
        · simp [ha, hb, hc, hd]
        · simp [ha, hb, hc, hd]

/-- Claim C10 witness: the trimmed non-blank line `"## x"` classifies
identically under both dispatch orders. -/
theorem claim10_witness : parseLine "## x" = parseLineSpecOrder "## x" :=
  claim10_dispatch_order "## x" (by decide) (by decide)
